import Mathlib

/-!
Verification of the flottbot core: the script-execution handler
(`handlers/script.go`, `ScriptExec`) and the Slack remote adapter
(`remote/slack/remote.go`, `Client.Reaction` / `Read` / `Send` /
`InteractiveComponents`), shallowly embedded as pure Lean functions over
explicit environments that stand for the OS and the Slack API.
-/

namespace Flottbot

/-! ## Go string helpers -/

/-- The cutset of `strings.Trim(s, " \n")` used throughout `ScriptExec`:
only the space and newline characters. -/
def trimCutset : List Char := [' ', '\n']

/-- Trim every leading and trailing character of `cutset` from a list. -/
def trimList (cutset : List Char) (cs : List Char) : List Char :=
  ((cs.dropWhile (· ∈ cutset)).reverse.dropWhile (· ∈ cutset)).reverse

/-- Go `strings.Trim(s, " \n")`: drop leading and trailing spaces/newlines. -/
def goTrim (s : String) : String :=
  ⟨trimList trimCutset s.data⟩

/-- The whitespace cutset of Go `strings.TrimSpace` (ASCII part), used only to
state what "surrounding-whitespace-trimmed" means in the specification. -/
def whitespaceCutset : List Char := [' ', '\t', '\n', '\r', '\x0b', '\x0c']

/-- Trimming of all surrounding whitespace, as the specification's words
"surrounding whitespace trimmed" describe (Go `strings.TrimSpace`);
this is NOT what the code calls — the code uses `goTrim`. -/
def trimWhitespace (s : String) : String :=
  ⟨trimList whitespaceCutset s.data⟩

/-- Go `len(s)` on the model's strings (character count). -/
def goLen (s : String) : Nat := s.data.length

/-- Go slice `s[:n]` on the model's strings. -/
def goTake (s : String) (n : Nat) : String := ⟨s.data.take n⟩

/-! ## ScriptExec (`handlers/script.go`)

`ScriptExec` is embedded as a pure function of the action, the result of
variable substitution (`utils.Substitute`), and an `ExecOutcome` describing
what the OS reported for `cmd.Output()` — timeout, error kind, captured
stdout/stderr and wait status.  Go's `error` return is `Option String`
(`none` = nil error, `some` = the error's text). -/

/-- Go struct `models.Action`: the exec-relevant fields of a rule. -/
structure Action where
  Name : String
  Cmd : String
  Timeout : Nat
deriving Repr, DecidableEq

/-- Go struct `models.ScriptResponse`: normalized outcome of a command execution. -/
structure ScriptResponse where
  Status : Int
  Output : String
deriving Repr, DecidableEq

/-- The error returned by `cmd.Output()`, by the dynamic type `ScriptExec`
switches on: `*exec.ExitError` (with its `WaitStatus.ExitStatus()` and
captured stderr), `*os.PathError`, or any other error. -/
inductive ExecErr
  | exitError (waitStatus : Int) (stderr : String)
  | pathError (msg : String)
  | otherError (msg : String)
deriving Repr, DecidableEq

/-- Go `err.Error()`: the textual description of the error.  For an
`*exec.ExitError` this is `"exit status N"` (from `ProcessState.String()`);
for the others it is the carried message. -/
def ExecErr.text : ExecErr → String
  | .exitError ws _ => "exit status " ++ toString ws
  | .pathError m => m
  | .otherError m => m

/-- Everything the OS reports back to `ScriptExec` about one spawned process:
whether the context deadline fired, the bytes of stdout from `cmd.Output()`,
the error (if non-nil), and — when the error is nil —
`cmd.ProcessState.Sys().(syscall.WaitStatus).ExitStatus()`. -/
structure ExecOutcome where
  deadlineExceeded : Bool
  stdout : String
  execErr : Option ExecErr
  exitStatus : Int
deriving Repr, DecidableEq

/-- Default timeout: a zero `args.Timeout` becomes 20 seconds. -/
def effectiveTimeout (t : Nat) : Nat := if t = 0 then 20 else t

/-- The fixed timeout message of `ScriptExec`. -/
def timeoutMsg : String := "Hmm, something timed out. Please try again."

/-- Embedding of `handlers.ScriptExec` over the substitution result
(`Except` error or substituted command) and the OS outcome.  Mirrors the
source line by line: default response `{Status: 1}`; substitution error
returns the default response plus the error; `ctx.Err() == DeadlineExceeded`
returns the fixed message with Status untouched; otherwise a non-nil error
is switched on its dynamic type, and trimmed non-empty stdout overrides the
chosen Output; a nil error yields the wait status and trimmed stdout. -/
def ScriptExec (args : Action) (subst : Except String String)
    (outcome : ExecOutcome) : ScriptResponse × Option String :=
  let result : ScriptResponse := { Status := 1, Output := "" }
  match subst with
  | .error e => (result, some e)
  | .ok _ =>
    if outcome.deadlineExceeded then
      ({ result with Output := timeoutMsg },
        some ("timeout reached, exec process for action '" ++ args.Name
          ++ "' cancelled"))
    else
      match outcome.execErr with
      | some e =>
        let result : ScriptResponse :=
          match e with
          | .exitError ws stderr =>
            { result with Status := ws, Output := goTrim stderr }
          | .pathError _ => { result with Status := 127, Output := e.text }
          | .otherError _ => { result with Output := goTrim e.text }
        let strOut := goTrim outcome.stdout
        let result :=
          if strOut ≠ "" then { result with Output := strOut } else result
        (result, some e.text)
      | none =>
        ({ result with
            Status := outcome.exitStatus
            Output := goTrim outcome.stdout }, none)

/-! ### The four outcome classes of `ScriptExec`

The branches of the source, in the order it tests them: the context
deadline, then the dynamic type of the non-nil error (`*os.PathError` is
the lookup failure; `*exec.ExitError` and the default case are commands
that started and failed), then the nil-error success path. -/

/-- Timeout outcome: `ctx.Err() == context.DeadlineExceeded`. -/
def ExecOutcome.isTimeout (o : ExecOutcome) : Prop :=
  o.deadlineExceeded = true

/-- Lookup-failure outcome: no timeout and the error is an `*os.PathError`. -/
def ExecOutcome.isLookupFailure (o : ExecOutcome) : Prop :=
  o.deadlineExceeded = false ∧ ∃ m, o.execErr = some (.pathError m)

/-- Non-zero-exit outcome: no timeout and a non-nil error that is not a
path error (the `*exec.ExitError` and default branches). -/
def ExecOutcome.isNonZeroExit (o : ExecOutcome) : Prop :=
  o.deadlineExceeded = false ∧
    ∃ e, o.execErr = some e ∧ ∀ m, e ≠ ExecErr.pathError m

/-- Success outcome: no timeout and a nil error. -/
def ExecOutcome.isSuccess (o : ExecOutcome) : Prop :=
  o.deadlineExceeded = false ∧ o.execErr = none

/-! ## Slack remote adapter (`remote/slack/remote.go`)

The `models` package is not part of the sources at hand, so the message data
model is taken from the specification; the Slack API itself is the
environment, represented by oracles, and each adapter method is embedded as
a function returning the updated state together with its trace of effects
(API calls, log lines, channel writes). -/

/-- Modelled from the spec: the message-type enumeration of the `models`
package.  The three dispatchable types are named; `unknown` stands for every
other value of the enumeration. -/
inductive MsgType
  | direct
  | channel
  | privateChannel
  | unknown
deriving Repr, DecidableEq

/-- Modelled from the spec: the fields of `models.Message` the remote adapter
touches.  (ChannelID, Timestamp) is the immutable remote message reference;
`Output` is the text payload; `EndTime` the transmission timestamp. -/
structure Message where
  ID : String
  ChannelID : String
  Timestamp : String
  Type' : MsgType
  Output : String
  EndTime : Int
deriving Repr, DecidableEq

/-- Modelled from the spec: the reaction-relevant fields of `models.Rule`. -/
structure Rule where
  Name : String
  Reaction : String
  RemoveReaction : String
deriving Repr, DecidableEq

/-- The credential fields of the slack `Client` struct. -/
structure Client where
  ListenerPort : String
  Token : String
  AppToken : String
  SigningSecret : String
deriving Repr, DecidableEq

/-- Model of `slack.NewRefToMessage(channelID, timestamp)`: the (ChannelID, Timestamp)
reference to a remote message. -/
def newRefToMessage (channelID timestamp : String) : String × String :=
  (channelID, timestamp)

/-- Oracle for the Slack web API: what `api.RemoveReaction` and
`api.AddReaction` return (`none` = nil error) for a given reaction name and
message reference. -/
structure SlackAPI where
  removeErr : String → String × String → Option String
  addErr : String → String × String → Option String

/-- Observable effects of `Client.Reaction`: successful API calls and error
log lines. -/
inductive ReactionEffect
  | removed (name : String) (ref : String × String)
  | added (name : String) (ref : String × String)
  | loggedError (msg : String)
deriving Repr, DecidableEq

/-- Embedding of `Client.Reaction` as an effect trace.  Mirrors the source: if
`rule.RemoveReaction` is non-empty, call `RemoveReaction`; on error log and
RETURN (skipping the add).  Then, if `rule.Reaction` is non-empty, call
`AddReaction`; on error log and return.  The Go function returns no error
value, so no failure can propagate — only the trace is observable. -/
def Reaction (api : SlackAPI) (message : Message) (rule : Rule) :
    List ReactionEffect :=
  let removeStep : List ReactionEffect × Bool :=
    if rule.RemoveReaction ≠ "" then
      let msgRef := newRefToMessage message.ChannelID message.Timestamp
      match api.removeErr rule.RemoveReaction msgRef with
      | some e => ([.loggedError ("could not add reaction: " ++ e)], true)
      | none => ([.removed rule.RemoveReaction msgRef], false)
    else ([], false)
  if removeStep.2 then removeStep.1
  else
    removeStep.1 ++
      (if rule.Reaction ≠ "" then
        let msgRef := newRefToMessage message.ChannelID message.Timestamp
        match api.addErr rule.Reaction msgRef with
        | some e => [.loggedError ("could not add reaction: " ++ e)]
        | none => [.added rule.Reaction msgRef]
      else [])

/-! ### Send -/

/-- The constant `slack.MaxMessageTextLength` of the slack-go library. -/
def MaxMessageTextLength : Nat := 40000

/-- The length-limit block of `Client.Send`: content longer than the platform
maximum is cut to (limit − 3) characters and `"..."` is appended. -/
def truncateOutput (s : String) : String :=
  if goLen s > MaxMessageTextLength then
    goTake s (MaxMessageTextLength - 3) ++ "..."
  else s

/-- Observable effects of `Client.Send`: a transmission (`send(api, message,
bot)`) carrying the exact message handed to the wire, or the warning logged
for an unknown message type. -/
inductive SendEffect
  | sent (m : Message)
  | warnedUnknownType
deriving Repr, DecidableEq

/-- Embedding of `Client.Send` as an effect trace: truncate over-long Output,
stamp `EndTime` with the current timestamp, then dispatch only the three
known message types; anything else logs a warning and sends nothing. -/
def Send (message : Message) (now : Int) : List SendEffect :=
  let message := { message with Output := truncateOutput message.Output }
  let message := { message with EndTime := now }
  match message.Type' with
  | .direct | .channel | .privateChannel => [.sent message]
  | .unknown => [.warnedUnknownType]

/-! ### Read -/

/-- Modelled from the spec: the fields of the bot context (`models.Bot`)
that `Client.Read` mutates or reads — identity, configured rooms, CLI flag. -/
structure ReadBot where
  ID : String
  Rooms : List (String × String)
  CLI : Bool
deriving Repr, DecidableEq

/-- Environment for one `Client.Read` call: what `getRooms(api)` returns,
what `api.AuthTest()` returns (error text or the bot user ID), and the
inbound messages each transport would forward onto the outbound channel
(`readFromSocketMode` / `readFromEventsAPI` live outside this file's
sources, so their channel traffic is an oracle). -/
structure ReadEnv where
  rooms : List (String × String)
  authTest : Except String String
  socketMessages : List Message
  eventsMessages : List Message

/-- Observable effects of `Client.Read` besides state and channel writes. -/
inductive ReadEffect
  | loggedAuthError
  | startedSocketMode
  | startedEventsAPI
  | loggedConfigError
deriving Repr, DecidableEq

/-- Embedding of `Client.Read` as (updated bot, messages written to the
outbound channel, effect trace).  Mirrors the source order: `bot.Rooms`
is overwritten from `getRooms(api)` BEFORE `api.AuthTest()`; an auth error
logs and returns at once; on success `bot.ID` is set, then exactly one
transport is chosen (socket mode if `AppToken` is set, else Events API if
`SigningSecret` is set), and finally a configuration error is logged when
neither credential is set and CLI mode is off. -/
def Read (c : Client) (env : ReadEnv) (bot : ReadBot) :
    ReadBot × List Message × List ReadEffect :=
  let bot := { bot with Rooms := env.rooms }
  match env.authTest with
  | .error _ => (bot, [], [.loggedAuthError])
  | .ok userID =>
    let bot := { bot with ID := userID }
    let transport : List Message × List ReadEffect :=
      if c.AppToken ≠ "" then (env.socketMessages, [.startedSocketMode])
      else if c.SigningSecret ≠ "" then
        (env.eventsMessages, [.startedEventsAPI])
      else ([], [])
    let tail : List ReadEffect :=
      if c.AppToken = "" ∧ c.SigningSecret = "" ∧ ¬bot.CLI then
        [.loggedConfigError]
      else []
    (bot, transport.1, transport.2 ++ tail)

/-! ### InteractiveComponents -/

/-- The route table of the lazily constructed `mux.Router` singleton:
(HTTP method, path) pairs in registration order. -/
structure Router where
  routes : List (String × String)
deriving Repr, DecidableEq

/-- Modelled from the spec: the interaction-server fields of `models.Bot` —
the feature flag and the configured callback path. -/
structure ICBot where
  InteractiveComponents : Bool
  SlackInteractionsCallbackPath : String
deriving Repr, DecidableEq

/-- Modelled from the spec: `isValidPath` (defined elsewhere in the slack
package) accepts an absolute path over a restricted character set — a
leading `/` followed only by letters, digits, `_`, `-` and `/`. -/
def isValidPath (p : String) : Bool :=
  match p.data with
  | [] => false
  | ch :: _ =>
    ch = '/' &&
      p.data.all (fun c2 =>
        c2.isAlphanum || c2 = '_' || c2 = '-' || c2 = '/')

/-- Observable effects of `Client.InteractiveComponents`. -/
inductive ICEffect
  | loggedError
  | routeRegistered (method path : String)
  | listenerStarted (addr : String)
  | processedRule
deriving Repr, DecidableEq

/-- Embedding of `Client.InteractiveComponents` as (new router singleton state,
effect trace) over the current state of the package-level
`interactionsRouter`.  Mirrors the source: inert unless the feature flag and
signing secret are both set; an empty callback path logs and returns; the
router is constructed only when the singleton is still nil (health route,
path validation, rule route, listener on :4000); finally the hit rule is
processed. -/
def InteractiveComponents (router : Option Router) (c : Client)
    (bot : ICBot) : Option Router × List ICEffect :=
  if bot.InteractiveComponents ∧ c.SigningSecret ≠ "" then
    if bot.SlackInteractionsCallbackPath = "" then (router, [.loggedError])
    else
      match router with
      | some r => (some r, [.processedRule])
      | none =>
        let r : Router := ⟨[("GET", "/interaction_health")]⟩
        if ¬isValidPath bot.SlackInteractionsCallbackPath then
          (some r, [.routeRegistered "GET" "/interaction_health",
            .loggedError])
        else
          let r : Router :=
            ⟨r.routes ++ [("POST", bot.SlackInteractionsCallbackPath)]⟩
          (some r,
            [.routeRegistered "GET" "/interaction_health",
             .routeRegistered "POST" bot.SlackInteractionsCallbackPath,
             .listenerStarted ":4000", .processedRule])
  else (router, [])

/-! ## Trimming lemmas -/

/-- The function `trimList` is the leading trim followed by Mathlib's
`rdropWhile`. -/
theorem trimList_eq_rdropWhile (c l : List Char) :
    trimList c l = List.rdropWhile (· ∈ c) (l.dropWhile (· ∈ c)) := rfl

/-- Trimming both ends is idempotent. -/
theorem trimList_idem (c l : List Char) :
    trimList c (trimList c l) = trimList c l := by
  rw [trimList_eq_rdropWhile, trimList_eq_rdropWhile]
  have h1 : (List.rdropWhile (· ∈ c) (l.dropWhile (· ∈ c))).dropWhile (· ∈ c)
      = List.rdropWhile (· ∈ c) (l.dropWhile (· ∈ c)) := by
    rw [List.dropWhile_eq_self_iff]
    intro hl
    have hpre := List.rdropWhile_prefix (· ∈ c) (l.dropWhile (· ∈ c))
    have hlen : 0 < (l.dropWhile (· ∈ c)).length :=
      lt_of_lt_of_le hl hpre.length_le
    have h0 := List.dropWhile_get_zero_not (· ∈ c) l hlen
    have hget := hpre.getElem (n := 0) hl
    simpa [List.get_eq_getElem, hget] using h0
  rw [h1, List.rdropWhile_idempotent]

/-- Idempotence of `goTrim`: its results carry no surrounding spaces or
newlines. -/
theorem goTrim_idem (s : String) : goTrim (goTrim s) = goTrim s := by
  simp only [goTrim]
  rw [trimList_idem]

/-! ## Claim theorems: ScriptExec -/

/-- C1: when the configured deadline has been exceeded, `ScriptExec`
returns the pre-call default Status 1 unchanged, the fixed timeout message
as Output, and a non-nil error. -/
theorem scriptExec_timeout_result (args : Action) (cmdProcessed : String)
    (outcome : ExecOutcome) (h : outcome.deadlineExceeded = true) :
    (ScriptExec args (.ok cmdProcessed) outcome).1.Status = 1 ∧
    (ScriptExec args (.ok cmdProcessed) outcome).1.Output = timeoutMsg ∧
    (ScriptExec args (.ok cmdProcessed) outcome).2 ≠ none := by
  simp [ScriptExec, h]

/-- Witness for C1: `sleep 30` under a 1-second timeout. -/
theorem scriptExec_timeout_result_witness :
    (ScriptExec ⟨"sleeper", "sleep 30", 1⟩ (.ok "sleep 30")
        ⟨true, "", none, 0⟩).1.Status = 1 ∧
    (ScriptExec ⟨"sleeper", "sleep 30", 1⟩ (.ok "sleep 30")
        ⟨true, "", none, 0⟩).1.Output = timeoutMsg ∧
    (ScriptExec ⟨"sleeper", "sleep 30", 1⟩ (.ok "sleep 30")
        ⟨true, "", none, 0⟩).2 ≠ none :=
  scriptExec_timeout_result ⟨"sleeper", "sleep 30", 1⟩ "sleep 30"
    ⟨true, "", none, 0⟩ rfl

/-- C2 counterexample: the code trims only spaces and newlines
(`strings.Trim(out, " \n")`), not all surrounding whitespace — stdout
beginning with a tab is returned with the tab intact, while the
whitespace-trimmed stdout the claim describes would drop it. -/
theorem scriptExec_success_tab_counterexample :
    (ScriptExec ⟨"tabber", "printtab", 5⟩ (.ok "printtab")
        ⟨false, "\thello", none, 0⟩).1.Output = "\thello" ∧
    trimWhitespace "\thello" = "hello" ∧
    ("\thello" : String) ≠ "hello" := by
  refine ⟨?_, ?_, ?_⟩ <;> decide

/-- C2 (amended): a command completing within its timeout with exit code 0
yields Status 0, Output = stdout trimmed of surrounding spaces and
newlines, and a nil error. -/
theorem scriptExec_success_result (args : Action) (cmdProcessed : String)
    (outcome : ExecOutcome) (h1 : outcome.deadlineExceeded = false)
    (h2 : outcome.execErr = none) (h3 : outcome.exitStatus = 0) :
    (ScriptExec args (.ok cmdProcessed) outcome).1.Status = 0 ∧
    (ScriptExec args (.ok cmdProcessed) outcome).1.Output
      = goTrim outcome.stdout ∧
    (ScriptExec args (.ok cmdProcessed) outcome).2 = none := by
  simp [ScriptExec, h1, h2, h3]

/-- Witness for the amended C2: `echo hello` exiting 0. -/
theorem scriptExec_success_result_witness :
    (ScriptExec ⟨"echoer", "echo hello", 5⟩ (.ok "echo hello")
        ⟨false, "hello\n", none, 0⟩).1.Status = 0 ∧
    (ScriptExec ⟨"echoer", "echo hello", 5⟩ (.ok "echo hello")
        ⟨false, "hello\n", none, 0⟩).1.Output = goTrim "hello\n" ∧
    (ScriptExec ⟨"echoer", "echo hello", 5⟩ (.ok "echo hello")
        ⟨false, "hello\n", none, 0⟩).2 = none :=
  scriptExec_success_result ⟨"echoer", "echo hello", 5⟩ "echo hello"
    ⟨false, "hello\n", none, 0⟩ rfl rfl rfl

/-- C3 counterexample: a command exiting non-zero with empty stderr and no
stdout gets Output `""` — the `*exec.ExitError` branch never falls back to
the error's textual description (`"exit status 1"`). -/
theorem scriptExec_exitError_empty_stderr_counterexample :
    (ScriptExec ⟨"failer", "false", 5⟩ (.ok "false")
        ⟨false, "", some (.exitError 1 ""), 0⟩).1.Output = "" ∧
    (ExecErr.exitError 1 "").text = "exit status 1" ∧
    ("" : String) ≠ "exit status 1" := by
  refine ⟨?_, ?_, ?_⟩ <;> decide

/-- C3 (amended): a command that runs but exits non-zero within its timeout
gets Status = the OS wait status, and Output = the trimmed stdout when that
is non-empty, else the trimmed stderr (even when the latter is empty), with
a non-nil error. -/
theorem scriptExec_exitError_result (args : Action) (cmdProcessed : String)
    (outcome : ExecOutcome) (ws : Int) (stderr : String)
    (h1 : outcome.deadlineExceeded = false)
    (h2 : outcome.execErr = some (.exitError ws stderr)) :
    (ScriptExec args (.ok cmdProcessed) outcome).1.Status = ws ∧
    (ScriptExec args (.ok cmdProcessed) outcome).1.Output
      = (if goTrim outcome.stdout ≠ "" then goTrim outcome.stdout
         else goTrim stderr) ∧
    (ScriptExec args (.ok cmdProcessed) outcome).2 ≠ none := by
  simp only [ScriptExec, h1, h2]
  split <;> simp_all
  split <;> simp_all

/-- Witness for the amended C3: `grep` exiting 2 with stderr text. -/
theorem scriptExec_exitError_result_witness :
    (ScriptExec ⟨"greper", "grep x missing", 5⟩ (.ok "grep x missing")
        ⟨false, "", some (.exitError 2 "grep: missing: No such file\n"), 0⟩).1.Status = 2 ∧
    (ScriptExec ⟨"greper", "grep x missing", 5⟩ (.ok "grep x missing")
        ⟨false, "", some (.exitError 2 "grep: missing: No such file\n"), 0⟩).1.Output
      = (if goTrim "" ≠ "" then goTrim ""
         else goTrim "grep: missing: No such file\n") ∧
    (ScriptExec ⟨"greper", "grep x missing", 5⟩ (.ok "grep x missing")
        ⟨false, "", some (.exitError 2 "grep: missing: No such file\n"), 0⟩).2 ≠ none :=
  scriptExec_exitError_result ⟨"greper", "grep x missing", 5⟩
    "grep x missing" ⟨false, "", some (.exitError 2 "grep: missing: No such file\n"), 0⟩
    2 "grep: missing: No such file\n" rfl rfl

/-- C4 counterexample: a bare command name that cannot be found in `$PATH`
is reported by Go as an `*exec.Error`, not an `*os.PathError`, so the type
switch routes it to the default branch — Status stays at the pre-call
default 1, never becoming the claimed 127. -/
theorem scriptExec_bare_name_lookup_counterexample :
    (ScriptExec ⟨"misser2", "nosuchcmd", 5⟩ (.ok "nosuchcmd")
        ⟨false, "",
          some (.otherError
            "exec: \"nosuchcmd\": executable file not found in $PATH"),
          0⟩).1.Status = 1 ∧
    (1 : Int) ≠ 127 := by
  refine ⟨?_, ?_⟩ <;> decide

/-- C4 (amended): a lookup failure reported as an `*os.PathError` — the
path-form executables that cannot be found or are not runnable — (with no
stdout, which a process that never started cannot have produced) yields
Status 127, Output = the lookup error text, and a non-nil error; bare-name
lookup failures take the default branch instead. -/
theorem scriptExec_pathError_result (args : Action) (cmdProcessed : String)
    (outcome : ExecOutcome) (msg : String)
    (h1 : outcome.deadlineExceeded = false)
    (h2 : outcome.execErr = some (.pathError msg))
    (h3 : goTrim outcome.stdout = "") :
    (ScriptExec args (.ok cmdProcessed) outcome).1.Status = 127 ∧
    (ScriptExec args (.ok cmdProcessed) outcome).1.Output = msg ∧
    (ScriptExec args (.ok cmdProcessed) outcome).2 ≠ none := by
  simp [ScriptExec, h1, h2, ExecErr.text, h3]

/-- Witness for C4: `/no/such/binary`. -/
theorem scriptExec_pathError_result_witness :
    (ScriptExec ⟨"misser", "/no/such/binary", 5⟩ (.ok "/no/such/binary")
        ⟨false, "",
          some (.pathError "fork/exec /no/such/binary: no such file or directory"), 0⟩).1.Status = 127 ∧
    (ScriptExec ⟨"misser", "/no/such/binary", 5⟩ (.ok "/no/such/binary")
        ⟨false, "",
          some (.pathError "fork/exec /no/such/binary: no such file or directory"), 0⟩).1.Output
      = "fork/exec /no/such/binary: no such file or directory" ∧
    (ScriptExec ⟨"misser", "/no/such/binary", 5⟩ (.ok "/no/such/binary")
        ⟨false, "",
          some (.pathError "fork/exec /no/such/binary: no such file or directory"), 0⟩).2 ≠ none :=
  scriptExec_pathError_result ⟨"misser", "/no/such/binary", 5⟩
    "/no/such/binary"
    ⟨false, "",
      some (.pathError "fork/exec /no/such/binary: no such file or directory"), 0⟩
    "fork/exec /no/such/binary: no such file or directory" rfl rfl rfl

/-- C9 counterexample: Go's `WaitStatus.ExitStatus()` reports −1 for a
signal-terminated process, and `ScriptExec` copies it into Status verbatim,
so Status is not always non-negative. -/
theorem scriptExec_signal_status_counterexample :
    (ScriptExec ⟨"killed", "kill-me", 5⟩ (.ok "kill-me")
        ⟨false, "", some (.exitError (-1) ""), 0⟩).1.Status = -1 ∧
    (-1 : Int) < 0 := by
  refine ⟨?_, ?_⟩ <;> decide

/-- C9 (amended): exactly one of the four outcome classes
{timeout, lookup-failure, non-zero-exit, success} applies to every
invocation; Output is a fixed point of the space-and-newline trim in every
class except lookup-failure (where it is the raw error text); and Status is
1, 127, the OS wait status of a failed command, or the exit status of a
successful one — the OS values may be negative (−1 for signals). -/
theorem scriptExec_classification (args : Action) (cmdProcessed : String)
    (outcome : ExecOutcome) :
    (outcome.isTimeout ∨ outcome.isLookupFailure ∨ outcome.isNonZeroExit ∨
      outcome.isSuccess) ∧
    ¬(outcome.isTimeout ∧ outcome.isLookupFailure) ∧
    ¬(outcome.isTimeout ∧ outcome.isNonZeroExit) ∧
    ¬(outcome.isTimeout ∧ outcome.isSuccess) ∧
    ¬(outcome.isLookupFailure ∧ outcome.isNonZeroExit) ∧
    ¬(outcome.isLookupFailure ∧ outcome.isSuccess) ∧
    ¬(outcome.isNonZeroExit ∧ outcome.isSuccess) ∧
    (goTrim (ScriptExec args (.ok cmdProcessed) outcome).1.Output
        = (ScriptExec args (.ok cmdProcessed) outcome).1.Output ∨
      outcome.isLookupFailure) ∧
    ((ScriptExec args (.ok cmdProcessed) outcome).1.Status = 1 ∨
      (ScriptExec args (.ok cmdProcessed) outcome).1.Status = 127 ∨
      (∃ ws stderr, outcome.execErr = some (.exitError ws stderr) ∧
        (ScriptExec args (.ok cmdProcessed) outcome).1.Status = ws) ∨
      (outcome.execErr = none ∧
        (ScriptExec args (.ok cmdProcessed) outcome).1.Status
          = outcome.exitStatus)) := by
  obtain ⟨d, so, ee, es⟩ := outcome
  simp only [ExecOutcome.isTimeout, ExecOutcome.isLookupFailure,
    ExecOutcome.isNonZeroExit, ExecOutcome.isSuccess]
  refine ⟨?_, ?_, ?_, ?_, ?_, ?_, ?_, ?_, ?_⟩
  · cases d
    · cases ee with
      | none => exact Or.inr (Or.inr (Or.inr ⟨rfl, rfl⟩))
      | some e =>
        cases e with
        | exitError ws st =>
          exact Or.inr (Or.inr (Or.inl ⟨rfl, _, rfl, by simp⟩))
        | pathError m => exact Or.inr (Or.inl ⟨rfl, m, rfl⟩)
        | otherError m =>
          exact Or.inr (Or.inr (Or.inl ⟨rfl, _, rfl, by simp⟩))
    · exact Or.inl rfl
  · rintro ⟨ht, hf, -⟩; rw [ht] at hf; exact Bool.noConfusion hf
  · rintro ⟨ht, hf, -⟩; rw [ht] at hf; exact Bool.noConfusion hf
  · rintro ⟨ht, hf, -⟩; rw [ht] at hf; exact Bool.noConfusion hf
  · rintro ⟨⟨-, m, hm⟩, -, e, he, hne⟩
    rw [hm] at he
    injection he with he
    exact hne m he.symm
  · rintro ⟨⟨-, m, hm⟩, -, hnone⟩
    rw [hm] at hnone
    exact Option.noConfusion hnone
  · rintro ⟨⟨-, e, he, -⟩, -, hnone⟩
    rw [he] at hnone
    exact Option.noConfusion hnone
  · cases d
    · cases ee with
      | none => exact Or.inl (by simp [ScriptExec, goTrim_idem])
      | some e =>
        cases e with
        | exitError ws st =>
          refine Or.inl ?_
          simp only [ScriptExec]
          split
          · next h => exact absurd h (by simp)
          · split <;> simp [goTrim_idem]
        | pathError m => exact Or.inr ⟨rfl, m, rfl⟩
        | otherError m =>
          refine Or.inl ?_
          simp only [ScriptExec]
          split
          · next h => exact absurd h (by simp)
          · split <;> simp [goTrim_idem]
    · exact Or.inl (show goTrim timeoutMsg = timeoutMsg by decide)
  · cases d
    · cases ee with
      | none => exact Or.inr (Or.inr (Or.inr ⟨rfl, by simp [ScriptExec]⟩))
      | some e =>
        cases e with
        | exitError ws st =>
          refine Or.inr (Or.inr (Or.inl ⟨ws, st, rfl, ?_⟩))
          simp only [ScriptExec]
          split
          · next h => exact absurd h (by simp)
          · split <;> rfl
        | pathError m =>
          refine Or.inr (Or.inl ?_)
          simp only [ScriptExec]
          split
          · next h => exact absurd h (by simp)
          · split <;> rfl
        | otherError m =>
          refine Or.inl ?_
          simp only [ScriptExec]
          split
          · next h => exact absurd h (by simp)
          · split <;> rfl
    · exact Or.inl rfl

/-! ## Claim theorems: Slack remote -/

/-- C5: every message `Send` actually transmits carries Output truncated to
exactly the platform maximum (limit − 3 characters plus `"..."`) when the
original exceeded the limit, and the original Output unchanged otherwise. -/
theorem send_truncates_to_limit (message : Message) (now : Int) (m : Message)
    (hm : SendEffect.sent m ∈ Send message now) :
    (goLen message.Output > MaxMessageTextLength →
      goLen m.Output = MaxMessageTextLength ∧
      ['.', '.', '.'] <:+ m.Output.data) ∧
    (goLen message.Output ≤ MaxMessageTextLength →
      m.Output = message.Output) := by
  have hOut : m.Output = truncateOutput message.Output := by
    obtain ⟨id, ch, ts, ty, out, et⟩ := message
    cases ty <;> simp_all [Send]
  rw [hOut]
  constructor
  · intro hgt
    unfold truncateOutput
    rw [if_pos hgt]
    constructor
    · simp only [goLen, goTake, String.data_append, List.length_append,
        List.length_take]
      have : MaxMessageTextLength - 3 ≤ message.Output.data.length := by
        unfold goLen MaxMessageTextLength at *
        omega
      simp only [Nat.min_eq_left this]
      have hdots : ("..." : String).data.length = 3 := by decide
      rw [hdots]
      unfold MaxMessageTextLength
      omega
    · have hdots : ['.', '.', '.'] = ("..." : String).data := by decide
      rw [hdots, String.data_append]
      exact List.suffix_append _ _
  · intro hle
    unfold truncateOutput
    rw [if_neg (by omega)]

/-- Witness for C5: a short direct message is transmitted unchanged. -/
theorem send_truncates_to_limit_witness :
    SendEffect.sent ⟨"id", "ch", "ts", .direct, "hi", 0⟩
      ∈ Send ⟨"id", "ch", "ts", .direct, "hi", 7⟩ 0 ∧
    (goLen "hi" ≤ MaxMessageTextLength →
      (⟨"id", "ch", "ts", MsgType.direct, "hi", 0⟩ : Message).Output = "hi") :=
  ⟨by decide,
   (send_truncates_to_limit ⟨"id", "ch", "ts", .direct, "hi", 7⟩ 0
      ⟨"id", "ch", "ts", .direct, "hi", 0⟩ (by decide)).2⟩

/-- C7: a message whose type is none of {Direct, Channel, PrivateChannel}
produces only the logged warning — no transmission, and (by the return
type) no error. -/
theorem send_unknown_type_no_send (message : Message) (now : Int)
    (h1 : message.Type' ≠ .direct) (h2 : message.Type' ≠ .channel)
    (h3 : message.Type' ≠ .privateChannel) :
    Send message now = [.warnedUnknownType] ∧
    ∀ m, SendEffect.sent m ∉ Send message now := by
  obtain ⟨id, ch, ts, ty, out, et⟩ := message
  cases ty <;> simp_all [Send]

/-- Witness for C7: an unknown-typed message only logs. -/
theorem send_unknown_type_no_send_witness :
    Send ⟨"id", "ch", "ts", .unknown, "hi", 7⟩ 0
      = [.warnedUnknownType] ∧
    ∀ m, SendEffect.sent m ∉ Send ⟨"id", "ch", "ts", .unknown, "hi", 7⟩ 0 :=
  send_unknown_type_no_send ⟨"id", "ch", "ts", .unknown, "hi", 7⟩ 0
    (by decide) (by decide) (by decide)

/-- C6 counterexample: with `RemoveReaction = "eyes"` and
`Reaction = "thumbsup"`, a failing RemoveReaction call makes `Reaction`
log and return at once — the non-empty `rule.Reaction` is never added. -/
theorem reaction_remove_failure_skips_add_counterexample :
    (⟨"r1", "thumbsup", "eyes"⟩ : Rule).Reaction = "thumbsup" ∧
    ("thumbsup" : String) ≠ "" ∧
    Reaction ⟨fun _ _ => some "invalid_auth", fun _ _ => none⟩
        ⟨"id", "ch", "ts", .channel, "", 0⟩ ⟨"r1", "thumbsup", "eyes"⟩
      = [.loggedError "could not add reaction: invalid_auth"] ∧
    ReactionEffect.added "thumbsup" ("ch", "ts")
        ∉ Reaction ⟨fun _ _ => some "invalid_auth", fun _ _ => none⟩
            ⟨"id", "ch", "ts", .channel, "", 0⟩ ⟨"r1", "thumbsup", "eyes"⟩ := by
  refine ⟨rfl, by decide, by decide, by decide⟩

/-- C6 (amended): a non-empty `RemoveReaction` is attempted on the
(ChannelID, Timestamp) reference; on failure the call logs the error and
returns WITHOUT attempting the add; otherwise a non-empty `Reaction` is
attempted on the same reference, its failure also only logged.  No failure
reaches the caller — the embedding returns only an effect trace, matching
the Go method's empty return. -/
theorem reaction_best_effort (api : SlackAPI) (message : Message)
    (rule : Rule) :
    (∀ e, rule.RemoveReaction ≠ "" →
      api.removeErr rule.RemoveReaction (message.ChannelID, message.Timestamp)
          = some e →
      Reaction api message rule
        = [.loggedError ("could not add reaction: " ++ e)]) ∧
    (rule.RemoveReaction ≠ "" →
      api.removeErr rule.RemoveReaction (message.ChannelID, message.Timestamp)
          = none →
      ReactionEffect.removed rule.RemoveReaction
          (message.ChannelID, message.Timestamp) ∈ Reaction api message rule) ∧
    ((rule.RemoveReaction = "" ∨
        api.removeErr rule.RemoveReaction
            (message.ChannelID, message.Timestamp) = none) →
      rule.Reaction ≠ "" →
      api.addErr rule.Reaction (message.ChannelID, message.Timestamp)
          = none →
      ReactionEffect.added rule.Reaction
          (message.ChannelID, message.Timestamp) ∈ Reaction api message rule) ∧
    ((rule.RemoveReaction = "" ∨
        api.removeErr rule.RemoveReaction
            (message.ChannelID, message.Timestamp) = none) →
      ∀ e, rule.Reaction ≠ "" →
      api.addErr rule.Reaction (message.ChannelID, message.Timestamp)
          = some e →
      ReactionEffect.loggedError ("could not add reaction: " ++ e)
        ∈ Reaction api message rule) := by
  refine ⟨?_, ?_, ?_, ?_⟩
  · intro e h1 h2
    simp [Reaction, newRefToMessage, h1, h2]
  · intro h1 h2
    simp [Reaction, newRefToMessage, h1, h2]
  · rintro (h1 | h1) h2 h3
    · simp [Reaction, newRefToMessage, h1, h2, h3]
    · by_cases h0 : rule.RemoveReaction = ""
      · simp [Reaction, newRefToMessage, h0, h2, h3]
      · simp [Reaction, newRefToMessage, h0, h1, h2, h3]
  · rintro (h1 | h1) e h2 h3
    · simp [Reaction, newRefToMessage, h1, h2, h3]
    · by_cases h0 : rule.RemoveReaction = ""
      · simp [Reaction, newRefToMessage, h0, h2, h3]
      · simp [Reaction, newRefToMessage, h0, h1, h2, h3]

/-- Witness for the amended C6: both reactions configured, both API calls
succeeding — the removal and the addition both happen. -/
theorem reaction_best_effort_witness :
    ("eyes" : String) ≠ "" ∧
    ReactionEffect.removed "eyes" ("ch", "ts")
      ∈ Reaction ⟨fun _ _ => none, fun _ _ => none⟩
          ⟨"id", "ch", "ts", .channel, "", 0⟩ ⟨"r1", "thumbsup", "eyes"⟩ ∧
    ReactionEffect.added "thumbsup" ("ch", "ts")
      ∈ Reaction ⟨fun _ _ => none, fun _ _ => none⟩
          ⟨"id", "ch", "ts", .channel, "", 0⟩ ⟨"r1", "thumbsup", "eyes"⟩ :=
  ⟨by decide,
   (reaction_best_effort ⟨fun _ _ => none, fun _ _ => none⟩
      ⟨"id", "ch", "ts", .channel, "", 0⟩ ⟨"r1", "thumbsup", "eyes"⟩).2.1
     (by decide) rfl,
   (reaction_best_effort ⟨fun _ _ => none, fun _ _ => none⟩
      ⟨"id", "ch", "ts", .channel, "", 0⟩ ⟨"r1", "thumbsup", "eyes"⟩).2.2.1
     (Or.inr rfl) (by decide) rfl⟩

/-- C8: with the feature flag on, a signing secret set and a valid non-empty
callback path, the first activation builds the router with its two routes
and starts the one listener; a second activation finds the initialized
singleton, registers no route, starts no listener, and leaves the route set
unchanged — one listener total. -/
theorem interactiveComponents_idempotent (c : Client) (bot : ICBot)
    (h1 : bot.InteractiveComponents = true) (h2 : c.SigningSecret ≠ "")
    (h3 : bot.SlackInteractionsCallbackPath ≠ "")
    (h4 : isValidPath bot.SlackInteractionsCallbackPath = true) :
    (InteractiveComponents none c bot).1
      = some ⟨[("GET", "/interaction_health"),
               ("POST", bot.SlackInteractionsCallbackPath)]⟩ ∧
    (InteractiveComponents (InteractiveComponents none c bot).1 c bot).1
      = (InteractiveComponents none c bot).1 ∧
    (∀ mth p, ICEffect.routeRegistered mth p
        ∉ (InteractiveComponents (InteractiveComponents none c bot).1 c bot).2) ∧
    (∀ a, ICEffect.listenerStarted a
        ∉ (InteractiveComponents (InteractiveComponents none c bot).1 c bot).2) ∧
    List.count (ICEffect.listenerStarted ":4000")
        ((InteractiveComponents none c bot).2
          ++ (InteractiveComponents (InteractiveComponents none c bot).1 c
                bot).2) = 1 := by
  have hfst : InteractiveComponents none c bot
      = (some ⟨[("GET", "/interaction_health"),
                ("POST", bot.SlackInteractionsCallbackPath)]⟩,
         [.routeRegistered "GET" "/interaction_health",
          .routeRegistered "POST" bot.SlackInteractionsCallbackPath,
          .listenerStarted ":4000", .processedRule]) := by
    simp [InteractiveComponents, h1, h2, h3, h4]
  have hsnd : InteractiveComponents (InteractiveComponents none c bot).1 c bot
      = ((InteractiveComponents none c bot).1, [.processedRule]) := by
    rw [hfst]
    simp [InteractiveComponents, h1, h2, h3]
  refine ⟨by rw [hfst], by rw [hsnd], ?_, ?_, ?_⟩
  · intro mth p
    rw [hsnd]
    simp
  · intro a
    rw [hsnd]
    simp
  · rw [hsnd, hfst]
    simp [List.count_append]

/-- Witness for C8 at a concrete client and callback path. -/
theorem interactiveComponents_idempotent_witness :
    isValidPath "/slack_events/v1/bot" = true ∧
    (InteractiveComponents none ⟨"", "tok", "", "secret"⟩
        ⟨true, "/slack_events/v1/bot"⟩).1
      = some ⟨[("GET", "/interaction_health"),
               ("POST", "/slack_events/v1/bot")]⟩ ∧
    List.count (ICEffect.listenerStarted ":4000")
        ((InteractiveComponents none ⟨"", "tok", "", "secret"⟩
            ⟨true, "/slack_events/v1/bot"⟩).2
          ++ (InteractiveComponents
                (InteractiveComponents none ⟨"", "tok", "", "secret"⟩
                  ⟨true, "/slack_events/v1/bot"⟩).1
                ⟨"", "tok", "", "secret"⟩ ⟨true, "/slack_events/v1/bot"⟩).2)
      = 1 :=
  ⟨by decide,
   (interactiveComponents_idempotent ⟨"", "tok", "", "secret"⟩
      ⟨true, "/slack_events/v1/bot"⟩ rfl (by decide) (by decide)
      (by decide)).1,
   (interactiveComponents_idempotent ⟨"", "tok", "", "secret"⟩
      ⟨true, "/slack_events/v1/bot"⟩ rfl (by decide) (by decide)
      (by decide)).2.2.2.2⟩

/-- C10: `Read` overwrites `bot.Rooms` before the authentication test, so
even a failed auth leaves the rooms mutated while `bot.ID` keeps its old
value and nothing is written to the outbound channel; the ID is assigned
exactly the authenticated user ID when auth succeeds. -/
theorem read_rooms_before_auth (c : Client) (env : ReadEnv) (bot : ReadBot) :
    (Read c env bot).1.Rooms = env.rooms ∧
    (∀ e, env.authTest = .error e →
      (Read c env bot).1.ID = bot.ID ∧ (Read c env bot).2.1 = []) ∧
    (∀ u, env.authTest = .ok u → (Read c env bot).1.ID = u) := by
  rcases henv : env.authTest with e | u
  · refine ⟨by simp [Read, henv], fun e' _ => ⟨?_, ?_⟩, fun u hu => ?_⟩
    · simp [Read, henv]
    · simp [Read, henv]
    · exact Except.noConfusion hu
  · refine ⟨?_, fun e he => ?_, fun u' hu => ?_⟩
    · simp [Read, henv]
    · exact Except.noConfusion he
    · injection hu with hu
      subst hu
      simp [Read, henv]

/-- Witness for C10: failed auth — rooms already overwritten, ID kept,
channel silent. -/
theorem read_rooms_before_auth_witness :
    (Read ⟨"", "tok", "", ""⟩
        ⟨[("general", "C123")], .error "invalid_auth", [], []⟩
        ⟨"oldid", [], false⟩).1.Rooms = [("general", "C123")] ∧
    (Read ⟨"", "tok", "", ""⟩
        ⟨[("general", "C123")], .error "invalid_auth", [], []⟩
        ⟨"oldid", [], false⟩).1.ID = "oldid" ∧
    (Read ⟨"", "tok", "", ""⟩
        ⟨[("general", "C123")], .error "invalid_auth", [], []⟩
        ⟨"oldid", [], false⟩).2.1 = [] :=
  ⟨(read_rooms_before_auth ⟨"", "tok", "", ""⟩
      ⟨[("general", "C123")], .error "invalid_auth", [], []⟩
      ⟨"oldid", [], false⟩).1,
   ((read_rooms_before_auth ⟨"", "tok", "", ""⟩
      ⟨[("general", "C123")], .error "invalid_auth", [], []⟩
      ⟨"oldid", [], false⟩).2.1 "invalid_auth" rfl).1,
   ((read_rooms_before_auth ⟨"", "tok", "", ""⟩
      ⟨[("general", "C123")], .error "invalid_auth", [], []⟩
      ⟨"oldid", [], false⟩).2.1 "invalid_auth" rfl).2⟩

end Flottbot
